import Mathlib

/-!
# Shallow embedding of the kakeibo save path (`src/save.ts`)

This file embeds the diff-based save engine of the repository — the
`POST /api/monthly` handler in `src/save.ts` — and proves properties of it.

Modelling conventions:
* JavaScript values reaching the handler after `request.json()` are modelled
  by `JValue`; JS numbers are modelled as rationals (`Rat`), so that
  `Number.isInteger` becomes "denominator = 1".
* `undefined` (an absent object field) is `Option.none` from `getField`;
  JSON `null` is `JValue.null`.
* The D1 database is a `DB` record of row lists.  `db.batch` is modelled by
  `runBatch`: statements apply in order; each returns its `meta.changes`
  count; a statement error (primary-key violation on an entry insert) aborts
  and rolls back the whole batch.  A zero-affected-rows `UPDATE` is *not* an
  error, exactly as in SQLite/D1.  Foreign-key enforcement is not modelled;
  all concrete states used below satisfy the schema's foreign keys anyway.
* `crypto.randomUUID()` is modelled by a supply `fresh : Nat → String`,
  indexed by the position of the create-entry it is generated for.
* The wall clock is split into the pair `(year, month)` consumed by
  `getEditableMonthKeys` (the code reads only `getFullYear`/`getMonth`; the
  day of month never enters) and an opaque timestamp string `now`.
-/

namespace Kakeibo

/-- A JavaScript/JSON value as seen by the handler after `request.json()`. -/
inductive JValue where
  | null
  | bool (b : Bool)
  | num (q : Rat)
  | str (s : String)
  | arr (xs : List JValue)
  | obj (fields : List (String × JValue))

/-- JS truthiness: `null`, `false`, `0`, `""` are falsy; arrays and objects
are always truthy. -/
def truthy : JValue → Bool
  | .null => false
  | .bool b => b
  | .num q => q != 0
  | .str s => s != ""
  | .arr _ => true
  | .obj _ => true

/-- `typeof v === "object"` combined with truthiness (the code always writes
`!x || typeof x !== "object"`): true exactly for arrays and objects, since
`null` — the only falsy value of object type — is excluded by the truthiness
test. -/
def objLike : JValue → Bool
  | .arr _ => true
  | .obj _ => true
  | _ => false

/-- Property access `o.name`: `none` models `undefined`. -/
def getField : JValue → String → Option JValue
  | .obj fields, name => (fields.find? (fun p => p.1 == name)).map (·.2)
  | _, _ => none

/-- `typeof v === "string" ? v : ⋯` — extract a string field. -/
def asStr : Option JValue → Option String
  | some (.str s) => some s
  | _ => none

/-- Extract a number field (`typeof v === "number"`). -/
def asNum : Option JValue → Option Rat
  | some (.num q) => some q
  | _ => none

/-- `const MONTH_KEY_RE = /^\d{4}-(0[1-9]|1[0-2])$/` -/
def monthOkChars (m1 m2 : Char) : Bool :=
  (m1 == '0' && '1' ≤ m2 && m2 ≤ '9') || (m1 == '1' && '0' ≤ m2 && m2 ≤ '2')

def monthKeyRe (s : String) : Bool :=
  match s.data with
  | [a, b, c, d, h, m1, m2] =>
    a.isDigit && b.isDigit && c.isDigit && d.isDigit && h == '-' && monthOkChars m1 m2
  | _ => false

/-- `const DATE_RE = /^\d{4}-(0[1-9]|1[0-2])-(0[1-9]|[12]\d|3[01])$/`.
Note the day alternative bounds the day only to 01–31, for every month. -/
def dayOkChars (d1 d2 : Char) : Bool :=
  (d1 == '0' && '1' ≤ d2 && d2 ≤ '9')
    || ((d1 == '1' || d1 == '2') && d2.isDigit)
    || (d1 == '3' && (d2 == '0' || d2 == '1'))

def dateRe (s : String) : Bool :=
  match s.data with
  | [a, b, c, d, h1, m1, m2, h2, d1, d2] =>
    a.isDigit && b.isDigit && c.isDigit && d.isDigit && h1 == '-'
      && monthOkChars m1 m2 && h2 == '-' && dayOkChars d1 d2
  | _ => false

/-- `date.startsWith(monthKey + "-")` -/
def dateMatchesMonthKey (date monthKey : String) : Bool :=
  (monthKey ++ "-").data.isPrefixOf date.data

/-- `VALID_TYPES` -/
def VALID_TYPES : List String := ["expense", "income"]

/-- `VALID_PAYMENT_METHODS` -/
def VALID_PAYMENT_METHODS : List String := ["現金", "クレカ", "銀行引落", "QR", "その他"]

-- --- Editable month range (`getEditableMonthKeys`) ---

/-- `String(n).padStart(2, "0")` for the month number. -/
def pad2 (n : Int) : String :=
  let s := toString n
  if s.data.length < 2 then "0" ++ s else s

/-- The month key produced by
`new Date(y, mi, 1)` followed by `` `${getFullYear()}-${pad2 (getMonth()+1)}` ``:
the JS `Date` constructor normalises an out-of-range 0-based month index `mi`
by carrying into the year (floor division). -/
def jsMonthKey (y : Int) (mi : Int) : String :=
  toString (y + mi.fdiv 12) ++ "-" ++ pad2 (mi.fmod 12 + 1)

/-- `getEditableMonthKeys()`: the current month and the five preceding ones.
`year` and `month` (1-based) are the only components of `new Date()` the code
reads; the day of month never enters the computation. -/
def getEditableMonthKeys (year : Int) (month : Nat) : List String :=
  (List.range 6).map (fun i : Nat => jsMonthKey year ((month : Int) - 1 - (i : Int)))

-- --- Validated operation payloads ---

/-- Output of `validateCreateEntry` (the `CreateEntry` shape). -/
structure CreateEntryV where
  entry_id : Option String
  date : String
  type : String
  amount : Int
  category_id : String
  memo : Option String
  payment_method : Option String
deriving DecidableEq

/-- Output of `validateUpdateEntry` (the `UpdateEntry` shape). -/
structure UpdateEntryV where
  entry_id : String
  date : String
  type : String
  amount : Int
  category_id : String
  memo : Option String
  payment_method : Option String
deriving DecidableEq

/-- Output of `validateUpsertDailyBudget`. -/
structure UpsertDailyBudgetV where
  date : String
  daily_budget_override : Int
deriving DecidableEq

-- --- Validators ---

/-- `o.entry_id !== undefined && o.entry_id !== null && typeof o.entry_id !== "string"` -/
def badEntryIdField : Option JValue → Bool
  | none => false
  | some .null => false
  | some (.str _) => false
  | some _ => true

/-- The `payment_method` guard of `validateCreateEntry`: present, non-null,
and either not a string or not in `VALID_PAYMENT_METHODS`. -/
def badPaymentMethodField : Option JValue → Bool
  | none => false
  | some .null => false
  | some (.str s) => !(VALID_PAYMENT_METHODS.contains s)
  | some _ => true

/-- `validateCreateEntry(e, monthKey)` from `src/save.ts`.  Note: the code
checks date, type, amount, category_id and payment_method, but never checks
`memo`; a non-string memo is coerced to `null` in the returned object. -/
def validateCreateEntry (e : JValue) (monthKey : String) : Except String CreateEntryV :=
  if !objLike e then .error "Invalid entry object."
  else if badEntryIdField (getField e "entry_id") then
    .error "entry_id must be a string if provided."
  else
    match asStr (getField e "date") with
    | none => .error "date must be YYYY-MM-DD."
    | some date =>
      if !dateRe date then .error "date must be YYYY-MM-DD."
      else if !dateMatchesMonthKey date monthKey then
        .error ("date " ++ date ++ " does not match month_key " ++ monthKey ++ ".")
      else
        match asStr (getField e "type") with
        | none => .error "type must be 'expense' or 'income'."
        | some ty =>
          if !VALID_TYPES.contains ty then .error "type must be 'expense' or 'income'."
          else
            match asNum (getField e "amount") with
            | none => .error "amount must be a positive integer."
            | some q =>
              if q.den ≠ 1 || q ≤ 0 then .error "amount must be a positive integer."
              else
                match asStr (getField e "category_id") with
                | none => .error "category_id is required."
                | some cid =>
                  if cid = "" then .error "category_id is required."
                  else if badPaymentMethodField (getField e "payment_method") then
                    .error "Invalid payment_method."
                  else
                    .ok { entry_id := asStr (getField e "entry_id")
                          date := date
                          type := ty
                          amount := q.num
                          category_id := cid
                          memo := asStr (getField e "memo")
                          payment_method := asStr (getField e "payment_method") }

/-- `validateUpdateEntry(e, monthKey)`: requires a non-empty `entry_id`, then
delegates to `validateCreateEntry` on the same fields (the code's `{...o}`
spread copies the record unchanged). -/
def validateUpdateEntry (e : JValue) (monthKey : String) : Except String UpdateEntryV :=
  if !objLike e then .error "Invalid entry object."
  else
    match asStr (getField e "entry_id") with
    | none => .error "entry_id is required for update."
    | some eid =>
      if eid = "" then .error "entry_id is required for update."
      else
        match validateCreateEntry e monthKey with
        | .error m => .error m
        | .ok base =>
          .ok { entry_id := eid
                date := base.date
                type := base.type
                amount := base.amount
                category_id := base.category_id
                memo := base.memo
                payment_method := base.payment_method }

/-- `validateUpsertDailyBudget(d, monthKey)` -/
def validateUpsertDailyBudget (d : JValue) (monthKey : String) :
    Except String UpsertDailyBudgetV :=
  if !objLike d then .error "Invalid daily_budget object."
  else
    match asStr (getField d "date") with
    | none => .error "date must be YYYY-MM-DD."
    | some date =>
      if !dateRe date then .error "date must be YYYY-MM-DD."
      else if !dateMatchesMonthKey date monthKey then
        .error ("date " ++ date ++ " does not match month_key " ++ monthKey ++ ".")
      else
        match asNum (getField d "daily_budget_override") with
        | none => .error "daily_budget_override must be a non-negative integer."
        | some q =>
          if q.den ≠ 1 || q < 0 then
            .error "daily_budget_override must be a non-negative integer."
          else .ok { date := date, daily_budget_override := q.num }

/-- Loop body for `delete_entry_ids`. -/
def validateDeleteId (v : JValue) : Except String String :=
  match v with
  | .str s =>
    if s = "" then .error "delete_entry_ids must contain non-empty strings." else .ok s
  | _ => .error "delete_entry_ids must contain non-empty strings."

/-- Loop body for `delete_daily_budget_dates`. -/
def validateDeleteDate (v : JValue) (monthKey : String) : Except String String :=
  match v with
  | .str s =>
    if !dateRe s then .error "delete_daily_budget_dates must contain YYYY-MM-DD strings."
    else if !dateMatchesMonthKey s monthKey then
      .error ("date " ++ s ++ " does not match month_key " ++ monthKey ++ ".")
    else .ok s
  | _ => .error "delete_daily_budget_dates must contain YYYY-MM-DD strings."

/-- The `if (ops.X) { if (!Array.isArray(ops.X)) return err; for … }` pattern:
an absent or falsy field yields the empty list (an empty array is truthy, so
it still takes the array branch); a truthy non-array is an error; otherwise
each element is validated in order, stopping at the first failure. -/
def readOps {α : Type} (ops : JValue) (field : String) (notArrMsg : String)
    (f : JValue → Except String α) : Except String (List α) :=
  match getField ops field with
  | none => .ok []
  | some v =>
    if !truthy v then .ok []
    else
      match v with
      | .arr xs => xs.mapM f
      | _ => .error notArrMsg

/-- `e.entry_id || fallback` on the optional id. -/
def jsOrId (o : Option String) (fallback : String) : String :=
  match o with
  | some s => if s = "" then fallback else s
  | none => fallback

/-- `v.entry_id = v.entry_id || crypto.randomUUID()` over the create list;
the UUID supply is indexed by position. -/
def assignIds (fresh : Nat → String) : Nat → List CreateEntryV → List CreateEntryV
  | _, [] => []
  | i, e :: rest =>
    { e with entry_id := some (jsOrId e.entry_id (fresh i)) } :: assignIds fresh (i + 1) rest

-- --- Body validation and preflight ---

/-- Output of `validateBody`: `ops` stays an unvalidated JS value, exactly as
the code's `ops: b.ops as SaveOps`. -/
structure BodyV where
  month_key : String
  expected_version : Nat
  ops : JValue

/-- `validateBody(body)` -/
def validateBody (body : JValue) : Except String BodyV :=
  if !objLike body then .error "Invalid request body."
  else
    match asStr (getField body "month_key") with
    | none => .error "month_key must be in YYYY-MM format."
    | some mk =>
      if !monthKeyRe mk then .error "month_key must be in YYYY-MM format."
      else
        match asNum (getField body "expected_version") with
        | none => .error "expected_version must be a non-negative integer."
        | some q =>
          if q.den ≠ 1 || q < 0 then .error "expected_version must be a non-negative integer."
          else
            match getField body "ops" with
            | none => .error "ops is required."
            | some ops =>
              if !(truthy ops && objLike ops) then .error "ops is required."
              else .ok { month_key := mk, expected_version := q.num.toNat, ops := ops }

/-- A pre-storage failure: HTTP status plus error message. -/
structure ErrOut where
  status : Nat
  msg : String
deriving DecidableEq

/-- The fully validated request the batch compiler consumes. -/
structure ValidatedReq where
  month_key : String
  expected_version : Nat
  creates : List CreateEntryV
  updates : List UpdateEntryV
  deleteIds : List String
  upserts : List UpsertDailyBudgetV
  deleteDates : List String
deriving DecidableEq

/-- Every check of `handlePostMonthly` before any storage access, in source
order: body validation (400), editable-range check (403), then the five op
lists (400 each). -/
def preflight (body : JValue) (editable : List String) (fresh : Nat → String) :
    Except ErrOut ValidatedReq :=
  match validateBody body with
  | .error m => .error ⟨400, m⟩
  | .ok b =>
    if !editable.contains b.month_key then .error ⟨403, "This month is read-only."⟩
    else
      match readOps b.ops "create_entries" "create_entries must be an array."
          (fun e => validateCreateEntry e b.month_key) with
      | .error m => .error ⟨400, m⟩
      | .ok cs0 =>
        match readOps b.ops "update_entries" "update_entries must be an array."
            (fun e => validateUpdateEntry e b.month_key) with
        | .error m => .error ⟨400, m⟩
        | .ok us =>
          match readOps b.ops "delete_entry_ids" "delete_entry_ids must be an array."
              validateDeleteId with
          | .error m => .error ⟨400, m⟩
          | .ok ds =>
            match readOps b.ops "upsert_daily_budgets" "upsert_daily_budgets must be an array."
                (fun d => validateUpsertDailyBudget d b.month_key) with
            | .error m => .error ⟨400, m⟩
            | .ok ub =>
              match readOps b.ops "delete_daily_budget_dates"
                  "delete_daily_budget_dates must be an array."
                  (fun d => validateDeleteDate d b.month_key) with
              | .error m => .error ⟨400, m⟩
              | .ok dd =>
                .ok { month_key := b.month_key
                      expected_version := b.expected_version
                      creates := assignIds fresh 0 cs0
                      updates := us
                      deleteIds := ds
                      upserts := ub
                      deleteDates := dd }

/-- `totalOps` of the handler's no-op check. -/
def totalOps (v : ValidatedReq) : Nat :=
  v.creates.length + v.updates.length + v.deleteIds.length
    + v.upserts.length + v.deleteDates.length

-- --- Database model (tables of `db/schema.sql` used by the save path) ---

/-- A `months` row (primary key `(user_id, month_key)`). -/
structure MonthRow where
  user_id : String
  month_key : String
  version : Nat
  cutoff_type : String
  updated_at : String
deriving DecidableEq

/-- An `entries` row (primary key `entry_id`). -/
structure EntryRow where
  entry_id : String
  user_id : String
  month_key : String
  date : String
  type : String
  amount : Int
  category_id : String
  memo : Option String
  payment_method : Option String
  created_at : String
  updated_at : String
deriving DecidableEq

/-- A `daily_budgets` row (primary key `(user_id, month_key, date)`). -/
structure DailyBudgetRow where
  user_id : String
  month_key : String
  date : String
  daily_budget_override : Int
  created_at : String
  updated_at : String
deriving DecidableEq

/-- A `categories` row (only the columns the save path reads). -/
structure CategoryRow where
  category_id : String
  user_id : String
deriving DecidableEq

/-- The D1 database state. -/
structure DB where
  months : List MonthRow
  categories : List CategoryRow
  entries : List EntryRow
  dailyBudgets : List DailyBudgetRow
deriving DecidableEq

/-- The seven statement shapes `handlePostMonthly` compiles. -/
inductive Stmt where
  | insertMonthIfAbsent (user_id month_key now : String)
  | bumpVersion (now user_id month_key : String) (expected : Nat)
  | insertEntry (row : EntryRow)
  | updateEntry (date type : String) (amount : Int) (category_id : String)
      (memo payment_method : Option String) (now entry_id user_id month_key : String)
  | deleteEntry (entry_id user_id month_key : String)
  | upsertDailyBudget (user_id month_key date : String) (override : Int) (now : String)
  | deleteDailyBudget (user_id month_key date : String)
deriving DecidableEq

/-- Row-match predicates for the scoped statements. -/
def monthKeyMatch (u mk : String) (r : MonthRow) : Bool :=
  r.user_id == u && r.month_key == mk

def entryKeyMatch (eid u mk : String) (r : EntryRow) : Bool :=
  r.entry_id == eid && r.user_id == u && r.month_key == mk

def dailyKeyMatch (u mk d : String) (r : DailyBudgetRow) : Bool :=
  r.user_id == u && r.month_key == mk && r.date == d

/-- SQLite semantics of one statement: the updated database and the
statement's `meta.changes`.  `INSERT INTO entries` errors on a duplicate
`entry_id` (primary-key violation); every other statement here always
succeeds — in particular an `UPDATE` or `DELETE` matching zero rows succeeds
with `changes = 0`. -/
def applyStmt (db : DB) : Stmt → Except Unit (DB × Nat)
  | .insertMonthIfAbsent u mk now =>
    if db.months.any (monthKeyMatch u mk) then .ok (db, 0)
    else .ok ({ db with months := db.months ++ [⟨u, mk, 0, "calendar", now⟩] }, 1)
  | .bumpVersion now u mk expected =>
    let hit := fun r => monthKeyMatch u mk r && r.version == expected
    .ok ({ db with
            months := db.months.map (fun r =>
              if hit r then { r with version := r.version + 1, updated_at := now } else r) },
         (db.months.filter hit).length)
  | .insertEntry row =>
    if db.entries.any (fun r => r.entry_id == row.entry_id) then .error ()
    else .ok ({ db with entries := db.entries ++ [row] }, 1)
  | .updateEntry date ty amount cid memo pm now eid u mk =>
    .ok ({ db with
            entries := db.entries.map (fun r =>
              if entryKeyMatch eid u mk r then
                { r with date := date, type := ty, amount := amount, category_id := cid,
                         memo := memo, payment_method := pm, updated_at := now }
              else r) },
         (db.entries.filter (entryKeyMatch eid u mk)).length)
  | .deleteEntry eid u mk =>
    .ok ({ db with entries := db.entries.filter (fun r => !entryKeyMatch eid u mk r) },
         (db.entries.filter (entryKeyMatch eid u mk)).length)
  | .upsertDailyBudget u mk d ov now =>
    if db.dailyBudgets.any (dailyKeyMatch u mk d) then
      .ok ({ db with
              dailyBudgets := db.dailyBudgets.map (fun r =>
                if dailyKeyMatch u mk d r then
                  { r with daily_budget_override := ov, updated_at := now }
                else r) }, 1)
    else .ok ({ db with dailyBudgets := db.dailyBudgets ++ [⟨u, mk, d, ov, now, now⟩] }, 1)
  | .deleteDailyBudget u mk d =>
    .ok ({ db with dailyBudgets := db.dailyBudgets.filter (fun r => !dailyKeyMatch u mk d r) },
         (db.dailyBudgets.filter (dailyKeyMatch u mk d)).length)

/-- `db.batch(stmts)`: run in order, collect each statement's `changes`;
any statement error aborts the transaction (the caller keeps the original
database — rollback). -/
def runBatch (db : DB) : List Stmt → Except Unit (DB × List Nat)
  | [] => .ok (db, [])
  | s :: rest =>
    match applyStmt db s with
    | .error e => .error e
    | .ok (db1, n) =>
      match runBatch db1 rest with
      | .error e => .error e
      | .ok (db2, ns) => .ok (db2, n :: ns)

-- --- Batch compiler ---

/-- The `entries` row bound by the create-entry `INSERT` (statement 3). -/
def entryRowOfCreate (u mk now : String) (e : CreateEntryV) : EntryRow :=
  ⟨e.entry_id.getD "", u, mk, e.date, e.type, e.amount, e.category_id,
   e.memo, e.payment_method, now, now⟩

/-- The ordered statement list of `handlePostMonthly` (steps 1–7). -/
def buildStmts (v : ValidatedReq) (u : String) (now : String) : List Stmt :=
  [Stmt.insertMonthIfAbsent u v.month_key now,
   Stmt.bumpVersion now u v.month_key v.expected_version]
    ++ v.creates.map (fun e => Stmt.insertEntry (entryRowOfCreate u v.month_key now e))
    ++ v.updates.map (fun e =>
        Stmt.updateEntry e.date e.type e.amount e.category_id e.memo e.payment_method
          now e.entry_id u v.month_key)
    ++ v.deleteIds.map (fun id => Stmt.deleteEntry id u v.month_key)
    ++ v.upserts.map (fun d =>
        Stmt.upsertDailyBudget u v.month_key d.date d.daily_budget_override now)
    ++ v.deleteDates.map (fun d => Stmt.deleteDailyBudget u v.month_key d)

-- --- Category reference check ---

/-- JS `Set` insertion-order dedup. -/
def dedupAux (seen : List String) : List String → List String
  | [] => []
  | x :: xs => if seen.contains x then dedupAux seen xs else x :: dedupAux (x :: seen) xs

def insertionDedup (l : List String) : List String := dedupAux [] l

/-- `allCategoryIds`: the distinct category ids referenced by creates and
updates, in insertion order. -/
def referencedCategoryIds (v : ValidatedReq) : List String :=
  insertionDedup (v.creates.map (·.category_id) ++ v.updates.map (·.category_id))

/-- The single `SELECT category_id FROM categories WHERE user_id = ?`. -/
def userCategoryIds (db : DB) (u : String) : List String :=
  (db.categories.filter (fun c => c.user_id == u)).map (·.category_id)

/-- The first referenced category id that is not among the user's categories
(the loop `for (const cid of allCategoryIds)`), or `none`; when no id is
referenced the lookup is skipped entirely. -/
def categoryProblem (db : DB) (u : String) (v : ValidatedReq) : Option String :=
  if (referencedCategoryIds v).isEmpty then none
  else (referencedCategoryIds v).find? (fun c => !((userCategoryIds db u).contains c))

-- --- Handler ---

/-- The success payload (`SaveResponse`, with `applied` flattened). -/
structure SaveResp where
  month_key : String
  new_version : Nat
  created_entries : Nat
  updated_entries : Nat
  deleted_entries : Nat
  upserted_daily_budgets : Nat
  deleted_daily_budgets : Nat
deriving DecidableEq

/-- The handler's response body: a client-fault error (`{error: msg}`), the
409 conflict body, a success body, or an uncaught storage exception. -/
inductive Resp where
  | err (msg : String)
  | conflict
  | ok (r : SaveResp)
  | fault
deriving DecidableEq

/-- Observable outcome of one handler invocation: HTTP status, body, the
database afterwards, how many category lookups were issued, and the batch
submitted to storage (if any). -/
structure HOut where
  status : Nat
  resp : Resp
  db : DB
  catQueries : Nat
  batchSubmitted : Option (List Stmt)
deriving DecidableEq

/-- `handlePostMonthly(db, user_id, request)` from `src/save.ts`, with the
wall clock split into `(year, month)` (editable-window computation) and the
timestamp string `now`, and the UUID generator passed as `fresh`.

After the atomic batch, the code inspects `results[1].meta.changes` (the
version-bump `UPDATE`): zero means version conflict (409) — but the batch has
already committed, so `db` keeps the batch's effects on that path. -/
def handlePostMonthly (db : DB) (user_id : String) (body : JValue)
    (year : Int) (month : Nat) (now : String) (fresh : Nat → String) : HOut :=
  match preflight body (getEditableMonthKeys year month) fresh with
  | .error e => ⟨e.status, .err e.msg, db, 0, none⟩
  | .ok v =>
    if totalOps v = 0 then
      ⟨200, .ok ⟨v.month_key, v.expected_version, 0, 0, 0, 0, 0⟩, db, 0, none⟩
    else
      let q := if (referencedCategoryIds v).isEmpty then 0 else 1
      match categoryProblem db user_id v with
      | some cid => ⟨400, .err ("Invalid category_id: " ++ cid), db, q, none⟩
      | none =>
        let stmts := buildStmts v user_id now
        match runBatch db stmts with
        | .error _ => ⟨500, .fault, db, q, some stmts⟩
        | .ok (db2, changes) =>
          if changes.getD 1 0 = 0 then
            ⟨409, .conflict, db2, q, some stmts⟩
          else
            ⟨200,
             .ok ⟨v.month_key, v.expected_version + 1, v.creates.length, v.updates.length,
                  v.deleteIds.length, v.upserts.length, v.deleteDates.length⟩,
             db2, q, some stmts⟩

/-- Statements that never touch the `months` table (steps 3–7). -/
def nonMonthStmt : Stmt → Prop
  | .insertMonthIfAbsent _ _ _ => False
  | .bumpVersion _ _ _ _ => False
  | _ => True

/-- Statements whose effect on `entries` is confined to rows of `(u, mk)`:
the compiled update and delete statements must carry exactly this scope; the
other statement kinds either only append a row or do not touch `entries`. -/
def entryScoped (u mk : String) : Stmt → Prop
  | .updateEntry _ _ _ _ _ _ _ _ u2 mk2 => u2 = u ∧ mk2 = mk
  | .deleteEntry _ u2 mk2 => u2 = u ∧ mk2 = mk
  | _ => True

-- --- Concrete states and requests used by witnesses and counterexamples ---

/-- The UUID supply used in concrete runs. -/
def f0 : Nat → String := fun i => "id-" ++ toString i

/-- A user with one category and a `2026-02` month row at version 0. -/
def db0 : DB := ⟨[⟨"u1", "2026-02", 0, "calendar", "t0"⟩], [⟨"cat-001", "u1"⟩], [], []⟩

/-- Same, but the month row is already at version 1 (a save has happened). -/
def db1 : DB := ⟨[⟨"u1", "2026-02", 1, "calendar", "t0"⟩], [⟨"cat-001", "u1"⟩], [], []⟩

/-- The spec's scenario request: one create entry in `2026-02`, expected
version 0. -/
def body0 : JValue := .obj
  [("month_key", .str "2026-02"),
   ("expected_version", .num 0),
   ("ops", .obj
     [("create_entries", .arr
        [.obj [("date", .str "2026-02-05"), ("type", .str "expense"),
               ("amount", .num 500), ("category_id", .str "cat-001")]])])]

/-- A create entry dated `2026-02-30` — a day that does not exist in
February. -/
def body4 : JValue := .obj
  [("month_key", .str "2026-02"),
   ("expected_version", .num 0),
   ("ops", .obj
     [("create_entries", .arr
        [.obj [("date", .str "2026-02-30"), ("type", .str "expense"),
               ("amount", .num 500), ("category_id", .str "cat-001")]])])]

/-- A create entry whose `memo` is the number `5` — neither absent/null nor a
string. -/
def body6 : JValue := .obj
  [("month_key", .str "2026-02"),
   ("expected_version", .num 0),
   ("ops", .obj
     [("create_entries", .arr
        [.obj [("date", .str "2026-02-05"), ("type", .str "expense"),
               ("amount", .num 500), ("category_id", .str "cat-001"),
               ("memo", .num 5)]])])]

/-- A request with every op list absent. -/
def bodyN : JValue := .obj
  [("month_key", .str "2026-02"), ("expected_version", .num 3), ("ops", .obj [])]

/-- A request deleting an entry id that exists nowhere. -/
def body9 : JValue := .obj
  [("month_key", .str "2026-02"), ("expected_version", .num 0),
   ("ops", .obj [("delete_entry_ids", .arr [.str "zzz"])])]

deriving instance DecidableEq for Except

-- --- Concrete values for witnesses and counterexamples ---

def ceEntryOk : JValue := .obj
  [("date", .str "2026-02-05"), ("type", .str "expense"),
   ("amount", .num 500), ("category_id", .str "cat-001")]

def ceEntryMemoNum : JValue := .obj
  [("date", .str "2026-02-05"), ("type", .str "expense"),
   ("amount", .num 500), ("category_id", .str "cat-001"), ("memo", .num 5)]

def ueEntryMemoNum : JValue := .obj
  [("entry_id", .str "e-1"), ("date", .str "2026-02-05"), ("type", .str "expense"),
   ("amount", .num 500), ("category_id", .str "cat-001"), ("memo", .num 5)]

def ops0 : JValue := .obj [("create_entries", .arr [ceEntryOk])]

def b0 : BodyV := ⟨"2026-02", 0, ops0⟩

def v0 : ValidatedReq :=
  ⟨"2026-02", 0, [⟨some "id-0", "2026-02-05", "expense", 500, "cat-001", none, none⟩],
   [], [], [], []⟩

def p0 : DB × List Nat :=
  (⟨[⟨"u1", "2026-02", 1, "calendar", "ts"⟩], [⟨"cat-001", "u1"⟩],
    [⟨"id-0", "u1", "2026-02", "2026-02-05", "expense", 500, "cat-001", none, none,
      "ts", "ts"⟩], []⟩,
   [0, 1, 1])

def vN : ValidatedReq := ⟨"2026-02", 3, [], [], [], [], []⟩

def v9 : ValidatedReq := ⟨"2026-02", 0, [], [], ["zzz"], [], []⟩

def rowOther : EntryRow :=
  ⟨"e-9", "u2", "2026-02", "2026-02-01", "expense", 1, "cat-009", none, none, "t0", "t0"⟩

def dbX : DB := ⟨[⟨"u1", "2026-02", 0, "calendar", "t0"⟩], [⟨"cat-001", "u1"⟩],
  [rowOther], []⟩

def g1 : Nat → String := fun _ => "id"

def v0g : ValidatedReq :=
  ⟨"2026-02", 0, [⟨some "id", "2026-02-05", "expense", 500, "cat-001", none, none⟩],
   [], [], [], []⟩


-- --- Proof development ---


/-- Inversion for `asStr`. -/
lemma asStr_eq_some {o : Option JValue} {s : String} :
    asStr o = some s ↔ o = some (.str s) := by
  cases o with
  | none => simp [asStr]
  | some v => cases v <;> simp [asStr]

/-- Inversion for `asNum`. -/
lemma asNum_eq_some {o : Option JValue} {q : Rat} :
    asNum o = some q ↔ o = some (.num q) := by
  cases o with
  | none => simp [asNum]
  | some v => cases v <;> simp [asNum]

lemma validateCreateEntry_sound {e : JValue} {mk : String} {v : CreateEntryV}
    (h : validateCreateEntry e mk = .ok v) :
    dateRe v.date = true ∧ dateMatchesMonthKey v.date mk = true ∧
    VALID_TYPES.contains v.type = true ∧ 0 < v.amount ∧ v.category_id ≠ "" ∧
    (v.payment_method = none ∨
      ∃ s, v.payment_method = some s ∧ VALID_PAYMENT_METHODS.contains s = true) ∧
    getField e "date" = some (.str v.date) ∧
    getField e "type" = some (.str v.type) ∧
    (∃ q : Rat, getField e "amount" = some (.num q) ∧ q.den = 1 ∧ q.num = v.amount) ∧
    getField e "category_id" = some (.str v.category_id) ∧
    v.memo = asStr (getField e "memo") ∧
    v.payment_method = asStr (getField e "payment_method") := by
  unfold validateCreateEntry at h
  split at h
  · exact Except.noConfusion h
  split at h
  · exact Except.noConfusion h
  rename_i hobj hid
  split at h
  · exact Except.noConfusion h
  rename_i date hdate
  split at h
  · exact Except.noConfusion h
  rename_i hre
  split at h
  · exact Except.noConfusion h
  rename_i hmatch
  split at h
  · exact Except.noConfusion h
  rename_i ty hty
  split at h
  · exact Except.noConfusion h
  rename_i htyok
  split at h
  · exact Except.noConfusion h
  rename_i q ham
  split at h
  · exact Except.noConfusion h
  rename_i hq
  split at h
  · exact Except.noConfusion h
  rename_i cid hcid
  split at h
  · exact Except.noConfusion h
  rename_i hcid0
  split at h
  · exact Except.noConfusion h
  rename_i hpm
  rw [Except.ok.injEq] at h
  subst h
  have hre2 : dateRe date = true := by simpa using hre
  have hmatch2 : dateMatchesMonthKey date mk = true := by simpa using hmatch
  have htyok2 : VALID_TYPES.contains ty = true := by simpa using htyok
  have hq2 : q.den = 1 ∧ ¬q ≤ 0 := by simpa [not_or] using hq
  have hamount : 0 < q.num := by
    have hqpos : (0 : Rat) < q := lt_of_not_le hq2.2
    simpa [Rat.num_pos] using hqpos
  refine ⟨hre2, hmatch2, htyok2, hamount, hcid0, ?_, asStr_eq_some.mp hdate,
    asStr_eq_some.mp hty, ⟨q, asNum_eq_some.mp ham, hq2.1, rfl⟩,
    asStr_eq_some.mp hcid, rfl, rfl⟩
  cases hpmv : getField e "payment_method" with
  | none => exact Or.inl (by simp [asStr, hpmv])
  | some w =>
    cases w with
    | null => exact Or.inl (by simp [asStr, hpmv])
    | str s =>
      refine Or.inr ⟨s, by simp [asStr, hpmv], ?_⟩
      rw [hpmv] at hpm
      simpa [badPaymentMethodField] using hpm
    | bool b => rw [hpmv] at hpm; simp [badPaymentMethodField] at hpm
    | num q2 => rw [hpmv] at hpm; simp [badPaymentMethodField] at hpm
    | arr xs => rw [hpmv] at hpm; simp [badPaymentMethodField] at hpm
    | obj fs => rw [hpmv] at hpm; simp [badPaymentMethodField] at hpm


lemma validateUpdateEntry_sound {e : JValue} {mk : String} {v : UpdateEntryV}
    (h : validateUpdateEntry e mk = .ok v) :
    ∃ base : CreateEntryV, validateCreateEntry e mk = .ok base ∧
      v.date = base.date ∧ v.type = base.type ∧ v.amount = base.amount ∧
      v.category_id = base.category_id ∧ v.memo = base.memo ∧
      v.payment_method = base.payment_method ∧ v.entry_id ≠ "" := by
  unfold validateUpdateEntry at h
  split at h
  · exact Except.noConfusion h
  split at h
  · exact Except.noConfusion h
  rename_i eid heid
  split at h
  · exact Except.noConfusion h
  rename_i heid0
  split at h
  · exact Except.noConfusion h
  rename_i base hbase
  rw [Except.ok.injEq] at h
  subst h
  exact ⟨base, hbase, rfl, rfl, rfl, rfl, rfl, rfl, heid0⟩

lemma validateUpsertDailyBudget_sound {d : JValue} {mk : String} {v : UpsertDailyBudgetV}
    (h : validateUpsertDailyBudget d mk = .ok v) :
    dateRe v.date = true ∧ dateMatchesMonthKey v.date mk = true ∧
    0 ≤ v.daily_budget_override := by
  unfold validateUpsertDailyBudget at h
  split at h
  · exact Except.noConfusion h
  split at h
  · exact Except.noConfusion h
  rename_i date hdate
  split at h
  · exact Except.noConfusion h
  rename_i hre
  split at h
  · exact Except.noConfusion h
  rename_i hmatch
  split at h
  · exact Except.noConfusion h
  rename_i q hq
  split at h
  · exact Except.noConfusion h
  rename_i hq2
  rw [Except.ok.injEq] at h
  subst h
  have hq3 : q.den = 1 ∧ ¬q < 0 := by simpa [not_or] using hq2
  refine ⟨by simpa using hre, by simpa using hmatch, ?_⟩
  have : (0 : Rat) ≤ q := le_of_not_lt hq3.2
  simpa [Rat.num_nonneg] using this

lemma validateDeleteDate_sound {d : JValue} {mk s : String}
    (h : validateDeleteDate d mk = .ok s) :
    dateRe s = true ∧ dateMatchesMonthKey s mk = true := by
  unfold validateDeleteDate at h
  split at h <;> try exact Except.noConfusion h
  rename_i s0
  split at h
  · exact Except.noConfusion h
  rename_i hre
  split at h
  · exact Except.noConfusion h
  rename_i hmatch
  rw [Except.ok.injEq] at h
  subst h
  exact ⟨by simpa using hre, by simpa using hmatch⟩

lemma validateDeleteId_sound {d : JValue} {s : String}
    (h : validateDeleteId d = .ok s) : s ≠ "" := by
  unfold validateDeleteId at h
  split at h <;> try exact Except.noConfusion h
  rename_i s0
  split at h
  · exact Except.noConfusion h
  rename_i h0
  rw [Except.ok.injEq] at h
  subst h
  exact h0


lemma applyStmt_months {db db' : DB} {s : Stmt} {n : Nat}
    (hs : nonMonthStmt s) (h : applyStmt db s = .ok (db', n)) :
    db'.months = db.months := by
  cases s with
  | insertMonthIfAbsent u mk now => exact absurd hs not_false
  | bumpVersion now u mk expected => exact absurd hs not_false
  | insertEntry row =>
    simp only [applyStmt] at h
    split at h
    · exact Except.noConfusion h
    · rw [Except.ok.injEq, Prod.mk.injEq] at h
      rw [← h.1]
  | updateEntry date ty amount cid memo pm now eid u mk =>
    simp only [applyStmt] at h
    rw [Except.ok.injEq, Prod.mk.injEq] at h
    rw [← h.1]
  | deleteEntry eid u mk =>
    simp only [applyStmt] at h
    rw [Except.ok.injEq, Prod.mk.injEq] at h
    rw [← h.1]
  | upsertDailyBudget u mk d ov now =>
    simp only [applyStmt] at h
    split at h <;>
    · rw [Except.ok.injEq, Prod.mk.injEq] at h
      rw [← h.1]
  | deleteDailyBudget u mk d =>
    simp only [applyStmt] at h
    rw [Except.ok.injEq, Prod.mk.injEq] at h
    rw [← h.1]

lemma runBatch_cons {db : DB} {s : Stmt} {rest : List Stmt} {db' : DB} {ns : List Nat}
    (h : runBatch db (s :: rest) = .ok (db', ns)) :
    ∃ db1 n1 ns1, applyStmt db s = .ok (db1, n1) ∧
      runBatch db1 rest = .ok (db', ns1) ∧ ns = n1 :: ns1 := by
  simp only [runBatch] at h
  cases h1 : applyStmt db s with
  | error e => rw [h1] at h; exact Except.noConfusion h
  | ok p =>
    obtain ⟨db1, n1⟩ := p
    simp only [h1] at h
    cases h2 : runBatch db1 rest with
    | error e => rw [h2] at h; exact Except.noConfusion h
    | ok p2 =>
      obtain ⟨db2, ns2⟩ := p2
      simp only [h2] at h
      rw [Except.ok.injEq, Prod.mk.injEq] at h
      exact ⟨db1, n1, ns2, rfl, by rw [h2, h.1], h.2.symm⟩

lemma runBatch_months {stmts : List Stmt} :
    ∀ {db db' : DB} {ns : List Nat}, (∀ s ∈ stmts, nonMonthStmt s) →
    runBatch db stmts = .ok (db', ns) → db'.months = db.months := by
  induction stmts with
  | nil =>
    intro db db' ns _ h
    simp only [runBatch] at h
    rw [Except.ok.injEq, Prod.mk.injEq] at h
    rw [← h.1]
  | cons s rest ih =>
    intro db db' ns hall h
    obtain ⟨db1, n1, ns1, h1, h2, _⟩ := runBatch_cons h
    have e1 : db1.months = db.months :=
      applyStmt_months (hall s (List.mem_cons_self s rest)) h1
    have e2 : db'.months = db1.months :=
      ih (fun t ht => hall t (List.mem_cons_of_mem s ht)) h2
    rw [e2, e1]


lemma entryKeyMatch_false {eid u mk : String} {r : EntryRow}
    (hdiff : r.user_id ≠ u ∨ r.month_key ≠ mk) :
    entryKeyMatch eid u mk r = false := by
  unfold entryKeyMatch
  rcases hdiff with hd | hd <;> simp [hd]

lemma applyStmt_entries_frame {u mk : String} {db db' : DB} {s : Stmt} {n : Nat}
    (hs : entryScoped u mk s) (h : applyStmt db s = .ok (db', n))
    {r : EntryRow} (hr : r ∈ db.entries) (hdiff : r.user_id ≠ u ∨ r.month_key ≠ mk) :
    r ∈ db'.entries := by
  cases s with
  | insertMonthIfAbsent u2 mk2 now =>
    simp only [applyStmt] at h
    split at h <;>
    · rw [Except.ok.injEq, Prod.mk.injEq] at h
      rw [← h.1]
      exact hr
  | bumpVersion now u2 mk2 expected =>
    simp only [applyStmt] at h
    rw [Except.ok.injEq, Prod.mk.injEq] at h
    rw [← h.1]
    exact hr
  | insertEntry row =>
    simp only [applyStmt] at h
    split at h
    · exact Except.noConfusion h
    · rw [Except.ok.injEq, Prod.mk.injEq] at h
      rw [← h.1]
      exact List.mem_append_left _ hr
  | updateEntry date ty amount cid memo pm now eid u2 mk2 =>
    obtain ⟨h3, h4⟩ := hs
    rw [← h3, ← h4] at hdiff
    simp only [applyStmt] at h
    rw [Except.ok.injEq, Prod.mk.injEq] at h
    rw [← h.1]
    refine List.mem_map.mpr ⟨r, hr, ?_⟩
    simp [entryKeyMatch_false hdiff]
  | deleteEntry eid u2 mk2 =>
    obtain ⟨h3, h4⟩ := hs
    rw [← h3, ← h4] at hdiff
    simp only [applyStmt] at h
    rw [Except.ok.injEq, Prod.mk.injEq] at h
    rw [← h.1]
    refine List.mem_filter.mpr ⟨hr, ?_⟩
    simp [entryKeyMatch_false hdiff]
  | upsertDailyBudget u2 mk2 d ov now =>
    simp only [applyStmt] at h
    split at h <;>
    · rw [Except.ok.injEq, Prod.mk.injEq] at h
      rw [← h.1]
      exact hr
  | deleteDailyBudget u2 mk2 d =>
    simp only [applyStmt] at h
    rw [Except.ok.injEq, Prod.mk.injEq] at h
    rw [← h.1]
    exact hr

lemma runBatch_entries_frame {u mk : String} {stmts : List Stmt} :
    ∀ {db db' : DB} {ns : List Nat}, (∀ s ∈ stmts, entryScoped u mk s) →
    runBatch db stmts = .ok (db', ns) →
    ∀ {r : EntryRow}, r ∈ db.entries → (r.user_id ≠ u ∨ r.month_key ≠ mk) →
    r ∈ db'.entries := by
  induction stmts with
  | nil =>
    intro db db' ns _ h r hr _
    simp only [runBatch] at h
    rw [Except.ok.injEq, Prod.mk.injEq] at h
    rw [← h.1]
    exact hr
  | cons s rest ih =>
    intro db db' ns hall h r hr hdiff
    obtain ⟨db1, n1, ns1, h1, h2, _⟩ := runBatch_cons h
    have hr1 : r ∈ db1.entries :=
      applyStmt_entries_frame (hall s (List.mem_cons_self s rest)) h1 hr hdiff
    exact ih (fun t ht => hall t (List.mem_cons_of_mem s ht)) h2 hr1 hdiff

lemma buildStmts_scoped (v : ValidatedReq) (u now : String) :
    ∀ s ∈ buildStmts v u now, entryScoped u v.month_key s := by
  intro s hs
  simp only [buildStmts, List.cons_append, List.nil_append, List.mem_cons,
    List.mem_append, List.mem_map] at hs
  rcases hs with rfl | rfl | ((((⟨e, _, rfl⟩ | ⟨e, _, rfl⟩) | ⟨e, _, rfl⟩) | ⟨e, _, rfl⟩) | ⟨e, _, rfl⟩) <;>
    trivial

lemma buildStmts_eq (v : ValidatedReq) (u now : String) :
    buildStmts v u now = Stmt.insertMonthIfAbsent u v.month_key now ::
      Stmt.bumpVersion now u v.month_key v.expected_version ::
      (v.creates.map (fun e => Stmt.insertEntry (entryRowOfCreate u v.month_key now e))
        ++ v.updates.map (fun e =>
            Stmt.updateEntry e.date e.type e.amount e.category_id e.memo e.payment_method
              now e.entry_id u v.month_key)
        ++ v.deleteIds.map (fun id => Stmt.deleteEntry id u v.month_key)
        ++ v.upserts.map (fun d =>
            Stmt.upsertDailyBudget u v.month_key d.date d.daily_budget_override now)
        ++ v.deleteDates.map (fun d => Stmt.deleteDailyBudget u v.month_key d)) := rfl

lemma buildStmts_tail_nonMonth (v : ValidatedReq) (u now : String) :
    ∀ s ∈ (v.creates.map (fun e => Stmt.insertEntry (entryRowOfCreate u v.month_key now e))
        ++ v.updates.map (fun e =>
            Stmt.updateEntry e.date e.type e.amount e.category_id e.memo e.payment_method
              now e.entry_id u v.month_key)
        ++ v.deleteIds.map (fun id => Stmt.deleteEntry id u v.month_key)
        ++ v.upserts.map (fun d =>
            Stmt.upsertDailyBudget u v.month_key d.date d.daily_budget_override now)
        ++ v.deleteDates.map (fun d => Stmt.deleteDailyBudget u v.month_key d)),
      nonMonthStmt s := by
  intro s hs
  simp only [List.mem_append, List.mem_map] at hs
  rcases hs with ((((⟨e, _, rfl⟩ | ⟨e, _, rfl⟩) | ⟨e, _, rfl⟩) | ⟨e, _, rfl⟩) | ⟨e, _, rfl⟩) <;>
    trivial


-- --- Handler-level helper lemmas ---

lemma preflight_err_400 {body : JValue} {ed : List String} {fresh : Nat → String}
    {e : ErrOut} {b : BodyV} (hb : validateBody body = .ok b)
    (hc : ed.contains b.month_key = true)
    (h : preflight body ed fresh = .error e) : e.status = 400 := by
  unfold preflight at h
  rw [hb] at h
  simp only [hc, Bool.not_true, Bool.false_eq_true, if_false, ite_false] at h
  cases h1 : readOps b.ops "create_entries" "create_entries must be an array."
      (fun x => validateCreateEntry x b.month_key) with
  | error m => rw [h1] at h; cases h; rfl
  | ok cs0 =>
  rw [h1] at h
  cases h2 : readOps b.ops "update_entries" "update_entries must be an array."
      (fun x => validateUpdateEntry x b.month_key) with
  | error m => rw [h2] at h; cases h; rfl
  | ok us =>
  rw [h2] at h
  cases h3 : readOps b.ops "delete_entry_ids" "delete_entry_ids must be an array."
      validateDeleteId with
  | error m => rw [h3] at h; cases h; rfl
  | ok ds =>
  rw [h3] at h
  cases h4 : readOps b.ops "upsert_daily_budgets" "upsert_daily_budgets must be an array."
      (fun x => validateUpsertDailyBudget x b.month_key) with
  | error m => rw [h4] at h; cases h; rfl
  | ok ub =>
  rw [h4] at h
  cases h5 : readOps b.ops "delete_daily_budget_dates"
      "delete_daily_budget_dates must be an array."
      (fun x => validateDeleteDate x b.month_key) with
  | error m => rw [h5] at h; cases h; rfl
  | ok dd =>
  rw [h5] at h
  exact Except.noConfusion h

lemma handle_status_of_ok {db : DB} {u : String} {body : JValue} {y : Int} {m : Nat}
    {now : String} {fresh : Nat → String} {v : ValidatedReq}
    (hpre : preflight body (getEditableMonthKeys y m) fresh = .ok v) :
    (handlePostMonthly db u body y m now fresh).status = 200 ∨
    (handlePostMonthly db u body y m now fresh).status = 400 ∨
    (handlePostMonthly db u body y m now fresh).status = 409 ∨
    (handlePostMonthly db u body y m now fresh).status = 500 := by
  unfold handlePostMonthly
  rw [hpre]
  by_cases h0 : totalOps v = 0
  · simp [h0]
  simp only [h0, if_false, ite_false]
  cases hcp : categoryProblem db u v with
  | some cid => simp
  | none =>
    cases hrb : runBatch db (buildStmts v u now) with
    | error e => simp
    | ok p =>
      obtain ⟨db2, changes⟩ := p
      by_cases hch : changes.getD 1 0 = 0 <;>
        simp [List.getD] at hch <;> simp [List.getD, hch]

lemma preflight_readonly {body : JValue} {ed : List String} {fresh : Nat → String}
    {b : BodyV} (hb : validateBody body = .ok b)
    (hc : ed.contains b.month_key = false) :
    preflight body ed fresh = .error ⟨403, "This month is read-only."⟩ := by
  unfold preflight
  simp only [hb]
  rw [hc]
  rfl

-- --- C3 ---

/-- C3: a validated request whose total operation count is zero performs no
storage access — no category lookup, no batch — leaves the database untouched
and returns 200 with `new_version = expected_version` and all applied counts
zero. -/
theorem noop_save_no_storage_access (db : DB) (u : String) (body : JValue)
    (y : Int) (m : Nat) (now : String) (fresh : Nat → String) (v : ValidatedReq)
    (h1 : preflight body (getEditableMonthKeys y m) fresh = .ok v)
    (h2 : totalOps v = 0) :
    handlePostMonthly db u body y m now fresh =
      ⟨200, .ok ⟨v.month_key, v.expected_version, 0, 0, 0, 0, 0⟩, db, 0, none⟩ := by
  unfold handlePostMonthly
  rw [h1]
  simp [h2]


-- --- C5 ---

/-- C5: the handler answers 403 "This month is read-only." with the database
untouched and no storage access exactly when the validated month key is not
in the editable set; and membership in that set is month-key string equality
against the six keys derived from the clock's year and month alone. -/
theorem readonly_month_rejection_iff (db : DB) (u : String) (body : JValue)
    (y : Int) (m : Nat) (now : String) (fresh : Nat → String) (b : BodyV)
    (hb : validateBody body = .ok b) :
    ((handlePostMonthly db u body y m now fresh =
        ⟨403, .err "This month is read-only.", db, 0, none⟩) ↔
      (getEditableMonthKeys y m).contains b.month_key = false) ∧
    ((getEditableMonthKeys y m).contains b.month_key = true ↔
      ∃ i : Nat, i < 6 ∧ b.month_key = jsMonthKey y ((m : Int) - 1 - (i : Int))) := by
  constructor
  · constructor
    · intro heq
      by_contra hne
      have hctrue : (getEditableMonthKeys y m).contains b.month_key = true := by
        cases hcv : (getEditableMonthKeys y m).contains b.month_key
        · exact absurd hcv hne
        · rfl
      have hst : (handlePostMonthly db u body y m now fresh).status = 403 := by
        rw [heq]
      cases hpre : preflight body (getEditableMonthKeys y m) fresh with
      | error e =>
        have h400 : e.status = 400 := preflight_err_400 hb hctrue hpre
        have : (handlePostMonthly db u body y m now fresh).status = e.status := by
          unfold handlePostMonthly
          rw [hpre]
        rw [hst] at this
        omega
      | ok v =>
        have h4 := @handle_status_of_ok db u body y m now fresh v hpre
        rcases h4 with h | h | h | h <;> rw [hst] at h <;> omega
    · intro hc
      have hpre := @preflight_readonly body (getEditableMonthKeys y m) fresh b hb hc
      unfold handlePostMonthly
      rw [hpre]
  · constructor
    · intro hc
      have hmem : b.month_key ∈ getEditableMonthKeys y m := by simpa using hc
      unfold getEditableMonthKeys at hmem
      obtain ⟨a, ha, hfa⟩ := List.mem_map.mp hmem
      exact ⟨a, List.mem_range.mp ha, hfa.symm⟩
    · rintro ⟨i, hi, hkey⟩
      have hmem : b.month_key ∈ getEditableMonthKeys y m := by
        unfold getEditableMonthKeys
        exact List.mem_map.mpr ⟨i, List.mem_range.mpr hi, hkey.symm⟩
      simpa using hmem

-- --- C7 ---

lemma handle_catQueries {db : DB} {u : String} {body : JValue} {y : Int} {m : Nat}
    {now : String} {fresh : Nat → String} {v : ValidatedReq}
    (h1 : preflight body (getEditableMonthKeys y m) fresh = .ok v)
    (h2 : totalOps v ≠ 0) :
    (handlePostMonthly db u body y m now fresh).catQueries =
      if (referencedCategoryIds v).isEmpty then 0 else 1 := by
  unfold handlePostMonthly
  simp only [h1]
  rw [if_neg h2]
  split
  · rfl
  · split
    · rfl
    · split
      · rfl
      · rfl

/-- C7: with at least one operation, the category lookup is skipped exactly
when no category id is referenced, is a single query otherwise, and any
referenced id outside the user's category set rejects the request with 400
before any batch is submitted and with the database unchanged. -/
theorem category_check_single_lookup (db : DB) (u : String) (body : JValue)
    (y : Int) (m : Nat) (now : String) (fresh : Nat → String) (v : ValidatedReq)
    (h1 : preflight body (getEditableMonthKeys y m) fresh = .ok v)
    (h2 : totalOps v ≠ 0) :
    (referencedCategoryIds v = [] →
      (handlePostMonthly db u body y m now fresh).catQueries = 0) ∧
    (referencedCategoryIds v ≠ [] →
      (handlePostMonthly db u body y m now fresh).catQueries = 1) ∧
    ((∃ cid ∈ referencedCategoryIds v, (userCategoryIds db u).contains cid = false) →
      (handlePostMonthly db u body y m now fresh).status = 400 ∧
      (handlePostMonthly db u body y m now fresh).db = db ∧
      (handlePostMonthly db u body y m now fresh).batchSubmitted = none) := by
  refine ⟨?_, ?_, ?_⟩
  · intro hemp
    rw [handle_catQueries h1 h2, hemp]
    rfl
  · intro hne
    rw [handle_catQueries h1 h2]
    rw [if_neg (by simpa [List.isEmpty_iff] using hne)]
  · rintro ⟨cid, hmem, hbad⟩
    have hne : ¬((referencedCategoryIds v).isEmpty = true) := by
      simp only [List.isEmpty_iff]
      intro hnil
      rw [hnil] at hmem
      exact List.not_mem_nil cid hmem
    have hex : ∃ x ∈ referencedCategoryIds v,
        (!((userCategoryIds db u).contains x)) = true := ⟨cid, hmem, by simpa using hbad⟩
    have hsome : (categoryProblem db u v).isSome := by
      unfold categoryProblem
      rw [if_neg hne]
      rw [List.find?_isSome]
      exact hex
    obtain ⟨cid2, hcp⟩ := Option.isSome_iff_exists.mp hsome
    unfold handlePostMonthly
    simp only [h1]
    rw [if_neg h2]
    simp only [hcp]
    exact ⟨trivial, trivial, trivial⟩

-- --- C9 ---

/-- C9: whenever the handler returns a success body, each applied count is
the length of the corresponding validated request list — regardless of how
many storage rows the statements actually affected. -/
theorem applied_counts_equal_list_lengths (db : DB) (u : String) (body : JValue)
    (y : Int) (m : Nat) (now : String) (fresh : Nat → String) (v : ValidatedReq)
    (r : SaveResp)
    (h1 : preflight body (getEditableMonthKeys y m) fresh = .ok v)
    (h2 : (handlePostMonthly db u body y m now fresh).resp = .ok r) :
    r.month_key = v.month_key ∧
    r.created_entries = v.creates.length ∧
    r.updated_entries = v.updates.length ∧
    r.deleted_entries = v.deleteIds.length ∧
    r.upserted_daily_budgets = v.upserts.length ∧
    r.deleted_daily_budgets = v.deleteDates.length := by
  unfold handlePostMonthly at h2
  simp only [h1] at h2
  by_cases h0 : totalOps v = 0
  · rw [if_pos h0] at h2
    have h2b : Resp.ok ⟨v.month_key, v.expected_version, 0, 0, 0, 0, 0⟩ = Resp.ok r := h2
    rw [Resp.ok.injEq] at h2b
    subst h2b
    unfold totalOps at h0
    have hc1 : v.creates.length = 0 := by omega
    have hc2 : v.updates.length = 0 := by omega
    have hc3 : v.deleteIds.length = 0 := by omega
    have hc4 : v.upserts.length = 0 := by omega
    have hc5 : v.deleteDates.length = 0 := by omega
    exact ⟨rfl, by simpa using hc1.symm, by simpa using hc2.symm, by simpa using hc3.symm,
      by simpa using hc4.symm, by simpa using hc5.symm⟩
  · rw [if_neg h0] at h2
    cases hcp : categoryProblem db u v with
    | some cid =>
      simp only [hcp] at h2
      exact Resp.noConfusion h2
    | none =>
      simp only [hcp] at h2
      cases hrb : runBatch db (buildStmts v u now) with
      | error e =>
        simp only [hrb] at h2
        exact Resp.noConfusion h2
      | ok p =>
        obtain ⟨db2, changes⟩ := p
        simp only [hrb] at h2
        by_cases hch : changes.getD 1 0 = 0
        · rw [if_pos hch] at h2
          exact Resp.noConfusion h2
        · rw [if_neg hch] at h2
          have h2b : Resp.ok ⟨v.month_key, v.expected_version + 1, v.creates.length,
              v.updates.length, v.deleteIds.length, v.upserts.length,
              v.deleteDates.length⟩ = Resp.ok r := h2
          rw [Resp.ok.injEq] at h2b
          subst h2b
          exact ⟨rfl, rfl, rfl, rfl, rfl, rfl⟩


-- --- C2 ---

/-- C2: when the optimistic-lock guard statement (statement index 1 of the
batch) affects exactly one row, the handler returns 200 with
`new_version = expected_version + 1` and the five applied counts equal to the
validated list lengths, the database becomes the batch result, and the month
row of `(user, month_key)` is stored with version `expected_version + 1` —
the guard both checked and bumped the version by exactly 1. -/
theorem save_success_response_and_version_bump (db : DB) (u : String) (body : JValue)
    (y : Int) (m : Nat) (now : String) (fresh : Nat → String) (v : ValidatedReq)
    (p : DB × List Nat)
    (h1 : preflight body (getEditableMonthKeys y m) fresh = .ok v)
    (h2 : totalOps v ≠ 0)
    (h3 : categoryProblem db u v = none)
    (h4 : runBatch db (buildStmts v u now) = .ok p)
    (h5 : p.2.getD 1 0 = 1) :
    (handlePostMonthly db u body y m now fresh).status = 200 ∧
    (handlePostMonthly db u body y m now fresh).resp =
      .ok ⟨v.month_key, v.expected_version + 1, v.creates.length, v.updates.length,
           v.deleteIds.length, v.upserts.length, v.deleteDates.length⟩ ∧
    (handlePostMonthly db u body y m now fresh).db = p.1 ∧
    ∃ rm, rm ∈ p.1.months ∧ rm.user_id = u ∧ rm.month_key = v.month_key ∧
      rm.version = v.expected_version + 1 := by
  obtain ⟨dbF, changes⟩ := p
  have h5b : changes.getD 1 0 = 1 := h5
  have hch : ¬(changes.getD 1 0 = 0) := by omega
  refine ⟨?_, ?_, ?_, ?_⟩
  · unfold handlePostMonthly
    simp only [h1]
    rw [if_neg h2]
    simp only [h3, h4]
    rw [if_neg hch]
  · unfold handlePostMonthly
    simp only [h1]
    rw [if_neg h2]
    simp only [h3, h4]
    rw [if_neg hch]
  · unfold handlePostMonthly
    simp only [h1]
    rw [if_neg h2]
    simp only [h3, h4]
    rw [if_neg hch]
  · rw [buildStmts_eq] at h4
    obtain ⟨dbA, n1, ns1, ha, hrest, hns⟩ := runBatch_cons h4
    obtain ⟨dbB, n2, ns2, hb2, hrest2, hns2⟩ := runBatch_cons hrest
    subst hns2
    subst hns
    have hn2one : n2 = 1 := by simpa [List.getD] using h5b
    simp only [applyStmt] at hb2
    rw [Except.ok.injEq, Prod.mk.injEq] at hb2
    obtain ⟨hdbB, hn2⟩ := hb2
    have hlen : (dbA.months.filter
        (fun r => monthKeyMatch u v.month_key r && r.version == v.expected_version)).length
        = 1 := by rw [hn2, hn2one]
    have hpos : 0 < (dbA.months.filter
        (fun r => monthKeyMatch u v.month_key r && r.version == v.expected_version)).length := by
      omega
    obtain ⟨rm0, hrm0⟩ := List.exists_mem_of_length_pos hpos
    have hconj := List.mem_filter.mp hrm0
    have h9 := hconj.2
    simp only [monthKeyMatch, Bool.and_eq_true, beq_iff_eq] at h9
    obtain ⟨⟨hu, hmk⟩, hver⟩ := h9
    have hmemB : { rm0 with version := rm0.version + 1, updated_at := now } ∈ dbB.months := by
      rw [← hdbB]
      refine List.mem_map.mpr ⟨rm0, hconj.1, ?_⟩
      simp [monthKeyMatch, hu, hmk, hver]
    have hM : dbF.months = dbB.months :=
      runBatch_months (buildStmts_tail_nonMonth v u now) hrest2
    refine ⟨{ rm0 with version := rm0.version + 1, updated_at := now }, ?_, hu, hmk, ?_⟩
    · show { rm0 with version := rm0.version + 1, updated_at := now } ∈ dbF.months
      rw [hM]
      exact hmemB
    · simp [hver]

-- --- C8 ---

/-- C8: entry rows that belong to a different user or a different month key
than the request's are never modified or deleted by a save — on every path
(including a version conflict after the committed batch) the original row is
still present in the entries table. -/
theorem entry_frame_other_user_month (db : DB) (u : String) (body : JValue)
    (y : Int) (m : Nat) (now : String) (fresh : Nat → String) (v : ValidatedReq)
    (r : EntryRow)
    (h1 : preflight body (getEditableMonthKeys y m) fresh = .ok v)
    (hr : r ∈ db.entries) (hdiff : r.user_id ≠ u ∨ r.month_key ≠ v.month_key) :
    r ∈ (handlePostMonthly db u body y m now fresh).db.entries := by
  unfold handlePostMonthly
  simp only [h1]
  by_cases h0 : totalOps v = 0
  · rw [if_pos h0]
    exact hr
  rw [if_neg h0]
  split
  · exact hr
  split
  · exact hr
  rename_i db2 changes hrb
  have hframe : r ∈ db2.entries :=
    runBatch_entries_frame (buildStmts_scoped v u now) hrb hr hdiff
  split <;> exact hframe


-- --- C10 ---

lemma assignIds_entry_id {f : Nat → String} (hf : ∀ i, f i ≠ "") :
    ∀ (l : List CreateEntryV) (i : Nat) (e : CreateEntryV), e ∈ assignIds f i l →
      ∃ s, e.entry_id = some s ∧ s ≠ "" := by
  intro l
  induction l with
  | nil =>
    intro i e he
    simp [assignIds] at he
  | cons a rest ih =>
    intro i e he
    simp only [assignIds, List.mem_cons] at he
    rcases he with rfl | he
    · refine ⟨jsOrId a.entry_id (f i), rfl, ?_⟩
      unfold jsOrId
      cases a.entry_id with
      | none => exact hf i
      | some s =>
        by_cases hs : s = ""
        · show (if s = "" then f i else s) ≠ ""
          rw [if_pos hs]
          exact hf i
        · show (if s = "" then f i else s) ≠ ""
          rw [if_neg hs]
          exact hs
    · exact ih (i + 1) e he

lemma preflight_ok_creates {body : JValue} {ed : List String} {fresh : Nat → String}
    {v : ValidatedReq} (h : preflight body ed fresh = .ok v) :
    ∃ cs0, v.creates = assignIds fresh 0 cs0 := by
  unfold preflight at h
  cases hvb : validateBody body with
  | error m => rw [hvb] at h; exact Except.noConfusion h
  | ok b =>
  simp only [hvb] at h
  split at h
  · exact Except.noConfusion h
  split at h
  · exact Except.noConfusion h
  rename_i cs0 hcs0
  split at h
  · exact Except.noConfusion h
  split at h
  · exact Except.noConfusion h
  split at h
  · exact Except.noConfusion h
  split at h
  · exact Except.noConfusion h
  rw [Except.ok.injEq] at h
  subst h
  exact ⟨cs0, rfl⟩

lemma preflight_error_indep {body : JValue} {ed : List String}
    (f g : Nat → String) (msg : ErrOut) :
    preflight body ed f = .error msg ↔ preflight body ed g = .error msg := by
  unfold preflight
  cases hvb : validateBody body with
  | error m => simp
  | ok b =>
  simp only []
  by_cases hc : ed.contains b.month_key = true
  · simp only [if_neg (show ¬((!ed.contains b.month_key) = true) by rw [hc]; simp)]
    cases h1 : readOps b.ops "create_entries" "create_entries must be an array."
        (fun e => validateCreateEntry e b.month_key) with
    | error m => simp
    | ok cs0 =>
    simp only []
    cases h2 : readOps b.ops "update_entries" "update_entries must be an array."
        (fun e => validateUpdateEntry e b.month_key) with
    | error m => simp
    | ok us =>
    simp only []
    cases h3 : readOps b.ops "delete_entry_ids" "delete_entry_ids must be an array."
        validateDeleteId with
    | error m => simp
    | ok ds =>
    simp only []
    cases h4 : readOps b.ops "upsert_daily_budgets" "upsert_daily_budgets must be an array."
        (fun d => validateUpsertDailyBudget d b.month_key) with
    | error m => simp
    | ok ub =>
    simp only []
    cases h5 : readOps b.ops "delete_daily_budget_dates"
        "delete_daily_budget_dates must be an array."
        (fun d => validateDeleteDate d b.month_key) with
    | error m => simp
    | ok dd => simp
  · have hcf : ed.contains b.month_key = false := by
      cases hcv : ed.contains b.month_key
      · rfl
      · exact absurd hcv hc
    simp only [if_pos (show (!ed.contains b.month_key) = true by rw [hcf]; rfl)]

/-- C10: a create entry whose supplied id is absent or the empty string is
not rejected for that reason: after validation every create entry carries a
non-empty id (the generated one when none was supplied), every compiled
entry `INSERT` binds a non-empty id, and the choice of the id generator can
never change the validation outcome — the same requests fail with the same
errors under any two generators. -/
theorem create_entry_id_assignment (body : JValue) (ed : List String) (u now : String)
    (f g : Nat → String) (hf : ∀ i, f i ≠ "") :
    (∀ v, preflight body ed f = .ok v →
      (∀ e ∈ v.creates, ∃ s, e.entry_id = some s ∧ s ≠ "") ∧
      (∀ row, Stmt.insertEntry row ∈ buildStmts v u now → row.entry_id ≠ "")) ∧
    (∀ msg, preflight body ed f = .error msg ↔ preflight body ed g = .error msg) := by
  constructor
  · intro v hv
    obtain ⟨cs0, hcs0⟩ := preflight_ok_creates hv
    have hids : ∀ e ∈ v.creates, ∃ s, e.entry_id = some s ∧ s ≠ "" := by
      rw [hcs0]
      exact fun e he => assignIds_entry_id hf cs0 0 e he
    refine ⟨hids, ?_⟩
    intro row hrow
    simp only [buildStmts, List.cons_append, List.nil_append, List.mem_cons,
      List.mem_append, List.mem_map] at hrow
    rcases hrow with hcon | hcon |
        ((((⟨e, he, hcon⟩ | ⟨e, _, hcon⟩) | ⟨e, _, hcon⟩) | ⟨e, _, hcon⟩) | ⟨e, _, hcon⟩) <;>
      try exact Stmt.noConfusion hcon
    have hrow2 : row = entryRowOfCreate u v.month_key now e := by
      have := hcon
      injection this with h9
      exact h9.symm
    obtain ⟨s, hs, hs0⟩ := hids e he
    rw [hrow2]
    unfold entryRowOfCreate
    simpa [hs] using hs0
  · intro msg
    exact preflight_error_indep f g msg


-- --- C4 (amended) ---

/-- C4 (amended): every date accepted by the validators — in create entries,
update entries, daily-budget upserts and daily-budget deletions — matches the
`DATE_RE` pattern (day 01–31) and has its year-month prefix equal to the
request's month key.  Day validity within the specific calendar month is not
checked (see the counterexample accepting 2026-02-30). -/
theorem accepted_dates_match_month_key (e : JValue) (mk : String) :
    (∀ v, validateCreateEntry e mk = .ok v →
      dateRe v.date = true ∧ dateMatchesMonthKey v.date mk = true) ∧
    (∀ v, validateUpdateEntry e mk = .ok v →
      dateRe v.date = true ∧ dateMatchesMonthKey v.date mk = true) ∧
    (∀ d, validateUpsertDailyBudget e mk = .ok d →
      dateRe d.date = true ∧ dateMatchesMonthKey d.date mk = true) ∧
    (∀ s, validateDeleteDate e mk = .ok s →
      dateRe s = true ∧ dateMatchesMonthKey s mk = true) := by
  refine ⟨?_, ?_, ?_, ?_⟩
  · intro v hv
    have h := validateCreateEntry_sound hv
    exact ⟨h.1, h.2.1⟩
  · intro v hv
    obtain ⟨base, hbase, hdate, _⟩ := validateUpdateEntry_sound hv
    have h := validateCreateEntry_sound hbase
    rw [hdate]
    exact ⟨h.1, h.2.1⟩
  · intro d hd
    have h := validateUpsertDailyBudget_sound hd
    exact ⟨h.1, h.2.1⟩
  · intro s hs
    exact validateDeleteDate_sound hs

/-- C4 witness: the create-entry validator accepts a well-formed element and
its date indeed satisfies both checks. -/
theorem accepted_dates_witness :
    dateRe "2026-02-05" = true ∧ dateMatchesMonthKey "2026-02-05" "2026-02" = true :=
  (accepted_dates_match_month_key ceEntryOk "2026-02").1
    ⟨none, "2026-02-05", "expense", 500, "cat-001", none, none⟩ (by decide)

/-- C4 counterexample: a request carrying the nonexistent calendar date
2026-02-30 under month_key 2026-02 is accepted with HTTP 200 and the entry is
stored with that date — it is not rejected. -/
theorem nonexistent_day_accepted :
    (handlePostMonthly db0 "u1" body4 2026 2 "ts" f0).status = 200 ∧
    (handlePostMonthly db0 "u1" body4 2026 2 "ts" f0).db.entries.map (·.date)
      = ["2026-02-30"] := by decide

-- --- C6 (amended) ---

/-- C6 (amended): an accepted create or update element satisfies every
documented field constraint except the memo one: date matches the pattern and
the month key, type is expense or income, amount is strictly positive,
category id is non-empty, payment method is absent or in the fixed enum, and
the checked fields are taken verbatim from the input — but the memo is only
coerced through `asStr`, so a non-string memo silently becomes `null`
instead of rejecting the request. -/
theorem create_entry_field_constraints (e : JValue) (mk : String) :
    (∀ v : CreateEntryV, validateCreateEntry e mk = .ok v →
      dateRe v.date = true ∧ dateMatchesMonthKey v.date mk = true ∧
      VALID_TYPES.contains v.type = true ∧ 0 < v.amount ∧ v.category_id ≠ "" ∧
      (v.payment_method = none ∨
        ∃ s, v.payment_method = some s ∧ VALID_PAYMENT_METHODS.contains s = true) ∧
      getField e "date" = some (.str v.date) ∧
      getField e "type" = some (.str v.type) ∧
      (∃ q : Rat, getField e "amount" = some (.num q) ∧ q.den = 1 ∧ q.num = v.amount) ∧
      getField e "category_id" = some (.str v.category_id) ∧
      v.memo = asStr (getField e "memo") ∧
      v.payment_method = asStr (getField e "payment_method")) ∧
    (∀ v : UpdateEntryV, validateUpdateEntry e mk = .ok v →
      dateRe v.date = true ∧ dateMatchesMonthKey v.date mk = true ∧
      VALID_TYPES.contains v.type = true ∧ 0 < v.amount ∧ v.category_id ≠ "" ∧
      (v.payment_method = none ∨
        ∃ s, v.payment_method = some s ∧ VALID_PAYMENT_METHODS.contains s = true) ∧
      getField e "date" = some (.str v.date) ∧
      getField e "type" = some (.str v.type) ∧
      (∃ q : Rat, getField e "amount" = some (.num q) ∧ q.den = 1 ∧ q.num = v.amount) ∧
      getField e "category_id" = some (.str v.category_id) ∧
      v.memo = asStr (getField e "memo") ∧
      v.payment_method = asStr (getField e "payment_method")) := by
  constructor
  · intro v h
    exact validateCreateEntry_sound h
  · intro v h
    obtain ⟨base, hbase, hdate, hty, ham, hcid, hmemo, hpm, _⟩ :=
      validateUpdateEntry_sound h
    rw [hdate, hty, ham, hcid, hmemo, hpm]
    exact validateCreateEntry_sound hbase

/-- C6 witness: concrete create and update elements with a numeric memo pass
validation and every non-memo constraint holds of their outputs, whose memo
is `none`. -/
theorem create_entry_field_constraints_witness :
    (dateRe "2026-02-05" = true ∧ dateMatchesMonthKey "2026-02-05" "2026-02" = true ∧
      VALID_TYPES.contains "expense" = true ∧ 0 < (500 : Int) ∧ ("cat-001" : String) ≠ "" ∧
      ((none : Option String) = none ∨
        ∃ s, (none : Option String) = some s ∧ VALID_PAYMENT_METHODS.contains s = true) ∧
      getField ceEntryMemoNum "date" = some (.str "2026-02-05") ∧
      getField ceEntryMemoNum "type" = some (.str "expense") ∧
      (∃ q : Rat, getField ceEntryMemoNum "amount" = some (.num q) ∧ q.den = 1 ∧
        q.num = (500 : Int)) ∧
      getField ceEntryMemoNum "category_id" = some (.str "cat-001") ∧
      (none : Option String) = asStr (getField ceEntryMemoNum "memo") ∧
      (none : Option String) = asStr (getField ceEntryMemoNum "payment_method")) ∧
    (dateRe "2026-02-05" = true ∧ dateMatchesMonthKey "2026-02-05" "2026-02" = true ∧
      VALID_TYPES.contains "expense" = true ∧ 0 < (500 : Int) ∧ ("cat-001" : String) ≠ "" ∧
      ((none : Option String) = none ∨
        ∃ s, (none : Option String) = some s ∧ VALID_PAYMENT_METHODS.contains s = true) ∧
      getField ueEntryMemoNum "date" = some (.str "2026-02-05") ∧
      getField ueEntryMemoNum "type" = some (.str "expense") ∧
      (∃ q : Rat, getField ueEntryMemoNum "amount" = some (.num q) ∧ q.den = 1 ∧
        q.num = (500 : Int)) ∧
      getField ueEntryMemoNum "category_id" = some (.str "cat-001") ∧
      (none : Option String) = asStr (getField ueEntryMemoNum "memo") ∧
      (none : Option String) = asStr (getField ueEntryMemoNum "payment_method")) :=
  ⟨(create_entry_field_constraints ceEntryMemoNum "2026-02").1
     ⟨none, "2026-02-05", "expense", 500, "cat-001", none, none⟩ (by decide),
   (create_entry_field_constraints ueEntryMemoNum "2026-02").2
     ⟨"e-1", "2026-02-05", "expense", 500, "cat-001", none, none⟩ (by decide)⟩

/-- C6 counterexample: a create entry whose memo is the number 5 — neither
absent/null nor a string — is not rejected: the whole request succeeds with
HTTP 200 and the entry is stored with memo `null`. -/
theorem nonstring_memo_accepted :
    (handlePostMonthly db0 "u1" body6 2026 2 "ts" f0).status = 200 ∧
    (handlePostMonthly db0 "u1" body6 2026 2 "ts" f0).db.entries.map (·.memo)
      = [none] := by decide

-- --- C1 (code bug) ---

/-- C1: at the spec's repeated-save input — month row already at version 1,
request sent with expected_version 0 and one create entry — the guard UPDATE
matches zero rows and the handler reports the 409 conflict, but the batch has
committed: the created entry persists in storage even though the database
held no entries before.  The batch's other effects do persist on the
conflict path. -/
theorem conflict_batch_effects_persist :
    (handlePostMonthly db1 "u1" body0 2026 2 "ts" f0).status = 409 ∧
    (handlePostMonthly db1 "u1" body0 2026 2 "ts" f0).resp = .conflict ∧
    db1.entries = [] ∧
    (handlePostMonthly db1 "u1" body0 2026 2 "ts" f0).db.entries.map (·.entry_id)
      = ["id-0"] := by decide

-- --- Remaining witnesses ---

/-- C2 witness: the spec's scenario — one create entry against a version-0
month with expected_version 0 — succeeds with new_version 1, count 1, and the
stored month row at version 1. -/
theorem save_success_witness :
    (handlePostMonthly db0 "u1" body0 2026 2 "ts" f0).status = 200 ∧
    (handlePostMonthly db0 "u1" body0 2026 2 "ts" f0).resp =
      .ok ⟨"2026-02", 1, 1, 0, 0, 0, 0⟩ ∧
    (handlePostMonthly db0 "u1" body0 2026 2 "ts" f0).db = p0.1 ∧
    (∃ rm, rm ∈ p0.1.months ∧ rm.user_id = "u1" ∧ rm.month_key = "2026-02" ∧
      rm.version = 1) :=
  save_success_response_and_version_bump db0 "u1" body0 2026 2 "ts" f0 v0 p0
    (by decide) (by decide) (by decide) (by decide) (by decide)

/-- C3 witness: a request with empty ops and expected_version 3 returns 200
with new_version 3, all counts zero, no storage access. -/
theorem noop_save_witness :
    handlePostMonthly db0 "u1" bodyN 2026 2 "ts" f0 =
      ⟨200, .ok ⟨"2026-02", 3, 0, 0, 0, 0, 0⟩, db0, 0, none⟩ :=
  noop_save_no_storage_access db0 "u1" bodyN 2026 2 "ts" f0 vN (by decide) (by decide)

/-- C5 witness: with the clock at 2026-02, a valid body for month 2026-02 is
not answered with the read-only rejection, and the membership
characterisation holds. -/
theorem readonly_month_witness :
    ((handlePostMonthly db0 "u1" body0 2026 2 "ts" f0 =
        ⟨403, .err "This month is read-only.", db0, 0, none⟩) ↔
      (getEditableMonthKeys 2026 2).contains "2026-02" = false) ∧
    ((getEditableMonthKeys 2026 2).contains "2026-02" = true ↔
      ∃ i : Nat, i < 6 ∧ "2026-02" = jsMonthKey 2026 ((2 : Nat) - 1 - (i : Int))) :=
  readonly_month_rejection_iff db0 "u1" body0 2026 2 "ts" f0 b0 (by rfl)

/-- C7 witness: the scenario request references one category id, so exactly
one category lookup is issued. -/
theorem category_check_witness :
    (referencedCategoryIds v0 = [] →
      (handlePostMonthly db0 "u1" body0 2026 2 "ts" f0).catQueries = 0) ∧
    (referencedCategoryIds v0 ≠ [] →
      (handlePostMonthly db0 "u1" body0 2026 2 "ts" f0).catQueries = 1) ∧
    ((∃ cid ∈ referencedCategoryIds v0, (userCategoryIds db0 "u1").contains cid = false) →
      (handlePostMonthly db0 "u1" body0 2026 2 "ts" f0).status = 400 ∧
      (handlePostMonthly db0 "u1" body0 2026 2 "ts" f0).db = db0 ∧
      (handlePostMonthly db0 "u1" body0 2026 2 "ts" f0).batchSubmitted = none) :=
  category_check_single_lookup db0 "u1" body0 2026 2 "ts" f0 v0 (by decide) (by decide)

/-- C8 witness: an entry row owned by another user survives a save by user
u1 that creates an entry in the same month. -/
theorem entry_frame_witness :
    rowOther ∈ (handlePostMonthly dbX "u1" body0 2026 2 "ts" f0).db.entries :=
  entry_frame_other_user_month dbX "u1" body0 2026 2 "ts" f0 v0 rowOther
    (by decide) (by decide) (Or.inl (by decide))

/-- C9 witness: deleting an entry id that exists nowhere still reports
deleted_entries = 1, the length of the request's deletion list. -/
theorem applied_counts_witness :
    (⟨"2026-02", 1, 0, 0, 1, 0, 0⟩ : SaveResp).month_key = v9.month_key ∧
    (⟨"2026-02", 1, 0, 0, 1, 0, 0⟩ : SaveResp).created_entries = v9.creates.length ∧
    (⟨"2026-02", 1, 0, 0, 1, 0, 0⟩ : SaveResp).updated_entries = v9.updates.length ∧
    (⟨"2026-02", 1, 0, 0, 1, 0, 0⟩ : SaveResp).deleted_entries = v9.deleteIds.length ∧
    (⟨"2026-02", 1, 0, 0, 1, 0, 0⟩ : SaveResp).upserted_daily_budgets = v9.upserts.length ∧
    (⟨"2026-02", 1, 0, 0, 1, 0, 0⟩ : SaveResp).deleted_daily_budgets = v9.deleteDates.length :=
  applied_counts_equal_list_lengths db0 "u1" body9 2026 2 "ts" f0 v9
    ⟨"2026-02", 1, 0, 0, 1, 0, 0⟩ (by decide) (by decide)

/-- C10 witness: with a constant non-empty id generator, the validated create
entry of the scenario request carries a non-empty id. -/
theorem create_entry_id_witness :
    ∃ s, (⟨some "id", "2026-02-05", "expense", 500, "cat-001", none, none⟩
        : CreateEntryV).entry_id = some s ∧ s ≠ "" :=
  ((create_entry_id_assignment body0 (getEditableMonthKeys 2026 2) "u1" "ts" g1 g1
      (fun i => by show "id" ≠ ""; decide)).1 v0g (by decide)).1
    ⟨some "id", "2026-02-05", "expense", 500, "cat-001", none, none⟩ (by decide)


end Kakeibo
